import Mathlib

/-!
Verification of the rig-magi code-review system: a shallow embedding of
the MAGI review-session state, the review protocol client's receive loop
(src/tools/code_review.rs), and the generate-review orchestrator loop
(src/main.rs), with theorems settling the specification's claims.

Wall-clock timestamps (chrono Utc::now) are not modelled: no claim depends
on them, and every other field of every message and state is carried.
-/

/-- Substring test on character lists: does pat occur as a prefix of hay? -/
def charListPrefix : List Char → List Char → Bool
  | [], _ => true
  | _ :: _, [] => false
  | p :: ps, h :: hs => p == h && charListPrefix ps hs

/-- Substring containment on character lists, scanning hay left to right. -/
def charListContains (pat : List Char) : List Char → Bool
  | [] => pat.isEmpty
  | h :: t => charListPrefix pat (h :: t) || charListContains pat t

/-- Model of Rust str::contains for literal patterns. -/
def strContains (s pat : String) : Bool :=
  charListContains pat.data s.data

/-- The per-reviewer verdict enum from code_review.rs. -/
inductive MAGIDecision
  | POSITIVE
  | NEGATIVE
  deriving DecidableEq, Repr

/-- One recorded message for a reviewer (request_id and content; the
wall-clock timestamp field is not modelled). -/
structure MAGIMessage where
  request_id : String
  content : String
  deriving DecidableEq, Repr

/-- Per-reviewer accumulated state: message log, optional decision,
concatenated content. -/
structure MAGIAgentState where
  messages : List MAGIMessage
  decision : Option MAGIDecision
  content : String
  deriving DecidableEq, Repr

/-- The three fixed reviewer slots. -/
structure MAGISystemState where
  melchior : MAGIAgentState
  balthasar : MAGIAgentState
  casper : MAGIAgentState
  deriving DecidableEq, Repr

/-- Default (session-start) system state: all three reviewers empty. -/
def MAGISystemState.default : MAGISystemState :=
  { melchior := { messages := [], decision := none, content := "" }
    balthasar := { messages := [], decision := none, content := "" }
    casper := { messages := [], decision := none, content := "" } }

/-- The verdict function MAGISystemState::get_final_decision: POSITIVE on
at least two POSITIVE decisions, NEGATIVE when all three decisions are set
and fewer than two are POSITIVE, pending (none) otherwise. -/
def MAGISystemState.get_final_decision (s : MAGISystemState) : Option MAGIDecision :=
  let positive_count :=
    [s.melchior, s.balthasar, s.casper].countP
      (fun st => match st.decision with | some .POSITIVE => true | _ => false)
  if positive_count ≥ 2 then
    some .POSITIVE
  else if [s.melchior, s.balthasar, s.casper].all (fun st => st.decision.isSome) then
    some .NEGATIVE
  else
    none

/-- The three decision fields of a session state, in reviewer order; used
to state verdict properties independently of the verdict function's own
fold. -/
def MAGISystemState.decisionList (s : MAGISystemState) : List (Option MAGIDecision) :=
  [s.melchior.decision, s.balthasar.decision, s.casper.decision]

/-- Melchior's fixed routing identifier. -/
def melchiorId : String := "d37c1cc8-bcc4-4b73-9f49-a93a30971f2c"

/-- Balthasar's fixed routing identifier. -/
def balthasarId : String := "6634d0ec-d700-4a92-9066-4960a0f11927"

/-- Casper's fixed routing identifier. -/
def casperId : String := "89cbe912-25d0-47b0-97da-b25622bfac0d"

/-- The fixed reviewer routing table AGENT_IDS from code_review.rs. -/
def AGENT_IDS : List (String × String) :=
  [("melchior", melchiorId),
   ("balthasar", balthasarId),
   ("casper", casperId)]

/-- Reviewer-name lookup by routing identifier, defaulting to "unknown",
as the receive loop does for every inbound message. -/
def agentNameFor (agent_id : String) : String :=
  ((AGENT_IDS.find? (fun p => p.2 == agent_id)).map (fun p => p.1)).getD "unknown"

/-- Selecting the mutable per-reviewer slot by name; none models the
match arm that skips unrecognized names (continue). -/
def MAGISystemState.getAgent (s : MAGISystemState) (name : String) : Option MAGIAgentState :=
  if name = "melchior" then some s.melchior
  else if name = "balthasar" then some s.balthasar
  else if name = "casper" then some s.casper
  else none

/-- Writing back the per-reviewer slot selected by name. -/
def MAGISystemState.setAgent (s : MAGISystemState) (name : String) (ag : MAGIAgentState) :
    MAGISystemState :=
  if name = "melchior" then { s with melchior := ag }
  else if name = "balthasar" then { s with balthasar := ag }
  else if name = "casper" then { s with casper := ag }
  else s

/-- The three inbound wire-message shapes the receive loop classifies
(terminal AgentResponse, streaming/completed MessageReceived envelope,
AgentErrorResponse), plus a shape for every other frame, which the loop
skips. Fields not read by the loop (session ids, timestamps) are omitted. -/
inductive WireMsg
  | agentResponse (agent_id request_id content status : String)
  | messageReceived (message_type status request_id agent_id content : String)
  | agentError (request_id agent_id error : String)
  | other
  deriving DecidableEq, Repr

/-- One event on the inbound stream: a delivered message or a receive
error from the transport. -/
inductive InEvent
  | msg (m : WireMsg)
  | recvError (e : String)
  deriving DecidableEq, Repr

/-- The request id carried by a wire message, when it has one. -/
def WireMsg.requestId : WireMsg → Option String
  | .agentResponse _ rid _ _ => some rid
  | .messageReceived _ _ rid _ _ => some rid
  | .agentError rid _ _ => some rid
  | .other => none

/-- The agent routing identifier carried by a wire message, when it has
one. -/
def WireMsg.agentId : WireMsg → Option String
  | .agentResponse aid _ _ _ => some aid
  | .messageReceived _ _ _ aid _ => some aid
  | .agentError _ aid _ => some aid
  | .other => none

/-- The error taxonomy of code_review.rs. -/
inductive CodeReviewError
  | WebSocketError (msg : String)
  | ConnectionError (msg : String)
  | DeserializationError (msg : String)
  deriving DecidableEq, Repr

/-- The tool's input arguments. -/
structure CodeReviewArgs where
  user_input : String
  code : String
  deriving DecidableEq, Repr

/-- The tool's output payload. -/
structure CodeReviewOutput where
  reviews : List String
  result : String
  passed : Bool
  magi_state : MAGISystemState
  code : String
  deriving DecidableEq, Repr

/-- The receive loop's local mutable state in CodeReviewTool::call:
reviews, final_result, passed, magi_state, completed_agents (the HashSet,
modelled as a duplicate-free insertion-ordered list) and error_messages. -/
structure LoopState where
  reviews : List String
  final_result : String
  passed : Bool
  magi_state : MAGISystemState
  completed_agents : List String
  error_messages : List String
  deriving DecidableEq, Repr

/-- The loop state at loop entry. -/
def initLoopState : LoopState :=
  { reviews := [], final_result := "", passed := false,
    magi_state := MAGISystemState.default, completed_agents := [],
    error_messages := [] }

/-- HashSet::insert on the completed-agents set: add the name unless
already present, so the list length is the set's cardinality. -/
def insertSet (s : List String) (x : String) : List String :=
  if x ∈ s then s else s ++ [x]

/-- Outcome of processing one inbound message: keep looping with a new
state, return an output early (the terminal-response quorum paths), or
break out of the loop and fall through to the drain epilogue. -/
inductive StepResult
  | cont (st : LoopState)
  | done (out : CodeReviewOutput)
  | broke (st : LoopState)
  deriving DecidableEq, Repr

/-- One iteration of the receive loop of CodeReviewTool::call on a
classified message, for session request id rid and reviewed code. -/
def stepMsg (code rid : String) (st : LoopState) : WireMsg → StepResult
  | .agentResponse agent_id mrid content status =>
    if mrid ≠ rid then .cont st
    else
      let agent_name := agentNameFor agent_id
      let reviews' := st.reviews ++ ["Reviewer " ++ agent_name ++ ": " ++ content]
      match st.magi_state.getAgent agent_name with
      | none => .cont { st with reviews := reviews' }
      | some ag =>
        let ag := { ag with
          messages := ag.messages ++ [{ request_id := mrid, content := content }],
          content := ag.content ++ content }
        if status = "completed" then
          let d : MAGIDecision :=
            if strContains content "POSITIVE" then .POSITIVE else .NEGATIVE
          let ag := { ag with decision := some d }
          let magi' := st.magi_state.setAgent agent_name ag
          let completed' := insertSet st.completed_agents agent_name
          let st' := { st with
            reviews := reviews',
            magi_state := magi',
            completed_agents := completed' }
          if completed'.length ≥ 3 then
            match magi'.get_final_decision with
            | some .POSITIVE =>
              .done { reviews := reviews', result := "POSITIVE",
                      passed := true, magi_state := magi', code := code }
            | some .NEGATIVE =>
              .done { reviews := reviews', result := "NEGATIVE",
                      passed := false, magi_state := magi', code := code }
            | none => .cont st'
          else .cont st'
        else
          .cont { st with
            reviews := reviews',
            magi_state := st.magi_state.setAgent agent_name ag }
  | .messageReceived message_type status mrid agent_id content =>
    if message_type ≠ "agent_response" then .cont st
    else if mrid ≠ rid then .cont st
    else
      let agent_name := agentNameFor agent_id
      match st.magi_state.getAgent agent_name with
      | none => .cont st
      | some ag =>
        if status = "streaming" then
          let ag := { ag with
            content := ag.content ++ content,
            messages := ag.messages ++ [{ request_id := mrid, content := content }] }
          .cont { st with magi_state := st.magi_state.setAgent agent_name ag }
        else if status = "completed" then
          let completed' := insertSet st.completed_agents agent_name
          let d : MAGIDecision :=
            if strContains ag.content "POSITIVE" then .POSITIVE else .NEGATIVE
          let ag := { ag with decision := some d }
          let magi' := st.magi_state.setAgent agent_name ag
          let st' := { st with magi_state := magi', completed_agents := completed' }
          if completed'.length ≥ 3 then
            match magi'.get_final_decision with
            | some .POSITIVE => .broke { st' with final_result := "POSITIVE", passed := true }
            | some .NEGATIVE => .broke { st' with final_result := "NEGATIVE", passed := false }
            | none => .cont st'
          else .cont st'
        else .cont st
  | .agentError mrid agent_id error =>
    if mrid ≠ rid then .cont st
    else
      let agent_name := agentNameFor agent_id
      let errors' := st.error_messages ++ ["Reviewer " ++ agent_name ++ " error: " ++ error]
      match st.magi_state.getAgent agent_name with
      | none => .cont { st with error_messages := errors' }
      | some ag =>
        let ag := { ag with
          messages := ag.messages ++ [{ request_id := mrid, content := "ERROR: " ++ error }],
          decision := some .NEGATIVE }
        let magi' := st.magi_state.setAgent agent_name ag
        let completed' := insertSet st.completed_agents agent_name
        let st' := { st with
          error_messages := errors',
          magi_state := magi',
          completed_agents := completed' }
        if completed'.length ≥ 3 then
          .broke { st' with final_result := "NEGATIVE", passed := false }
        else .cont st'
  | .other => .cont st

/-- The epilogue after the loop drains or breaks: extend reviews with the
error lines when any exist, then the three accumulated-content dumps, and
build the output. -/
def finalizeOutput (code : String) (st : LoopState) : CodeReviewOutput :=
  let reviews := if st.error_messages.isEmpty then st.reviews
    else st.reviews ++ st.error_messages
  let reviews := reviews ++
    ["Melchior: " ++ st.magi_state.melchior.content,
     "Balthasar: " ++ st.magi_state.balthasar.content,
     "Casper: " ++ st.magi_state.casper.content]
  { reviews := reviews, result := st.final_result, passed := st.passed,
    magi_state := st.magi_state, code := code }

/-- The receive loop over the inbound event stream: end of stream drains
to the epilogue, a receive failure aborts the call with a WebSocket
error, and each message is processed by stepMsg. -/
def runLoop (code rid : String) (st : LoopState) :
    List InEvent → Except CodeReviewError CodeReviewOutput
  | [] => .ok (finalizeOutput code st)
  | .recvError e :: _ =>
    .error (.WebSocketError ("Error receiving message: " ++ e))
  | .msg m :: rest =>
    match stepMsg code rid st m with
    | .cont st' => runLoop code rid st' rest
    | .done out => .ok out
    | .broke st' => .ok (finalizeOutput code st')

/-- CodeReviewTool::call, given the environment the embedding abstracts:
the connection attempt's failure (if any), the judgement-request send's
failure (if any), the fresh request id, and the inbound event stream. -/
def codeReviewCall (args : CodeReviewArgs) (connectFailure sendFailure : Option String)
    (rid : String) (events : List InEvent) :
    Except CodeReviewError CodeReviewOutput :=
  match connectFailure with
  | some e => .error (.ConnectionError ("Failed to connect to WebSocket server: " ++ e))
  | none =>
    match sendFailure with
    | some e => .error (.WebSocketError ("Failed to send review request: " ++ e))
    | none => runLoop args.code rid initLoopState events

/-- The post-loop state carried by a step result, when the step did not
return an output directly (cont keeps looping, broke falls through to the
drain epilogue; done carries an output instead). -/
def StepResult.nextState : StepResult → Option LoopState
  | .cont st => some st
  | .broke st => some st
  | .done _ => none

/-- One assistant-response item from the completion provider: plain text
or a tool invocation. -/
inductive AsstContent
  | text (t : String)
  | toolCall (id name arguments : String)
  deriving DecidableEq, Repr

/-- One conversation turn of the orchestrator's chat history. -/
inductive ChatMsg
  | userText (t : String)
  | assistantText (t : String)
  | assistantToolCall (id name arguments : String)
  | userToolResult (id text : String)
  deriving DecidableEq, Repr

/-- Whether a turn is an assistant plain-text turn. -/
def ChatMsg.isAssistantText : ChatMsg → Bool
  | .assistantText _ => true
  | _ => false

/-- What the orchestrator reads off a tool-call result string: the raw
text, whether it parses as JSON, and the optional passed and code fields
extracted from the parsed value. -/
structure ToolResultView where
  raw : String
  parseOk : Bool
  passed : Option Bool
  code : Option String
  deriving DecidableEq, Repr

/-- Result of the for-loop over one provider response's contents in
multi_turn_prompt: either an early return with the approved code, or the
loop ended (by break or exhaustion) with the updated history, final_text,
code_approved flag and next prompt. -/
inductive ProcessOut
  | returned (code : String) (hist : List ChatMsg)
  | ended (hist : List ChatMsg) (finalText : Option String) (approved : Bool)
      (next : ChatMsg)
  deriving DecidableEq, Repr

/-- The for-loop of MultiTurnAgent::multi_turn_prompt over the contents
of one provider response. A text item is recorded as an assistant turn
and sets final_text/code_approved; a tool call is recorded, the tool is
invoked, and depending on the parsed passed/code fields the loop either
returns the approved code (after appending the tool-result turn and the
final assistant turn), or breaks with a rejection re-prompt, or breaks
re-prompting with the raw tool result. -/
def processContents (tool : String → String → ToolResultView) (hist : List ChatMsg)
    (finalText : Option String) (approved : Bool) (prompt : ChatMsg) :
    List AsstContent → ProcessOut
  | [] => .ended hist finalText approved prompt
  | .text t :: rest =>
    processContents tool (hist ++ [.assistantText t]) (some t) true prompt rest
  | .toolCall id name args :: _ =>
    if (tool name args).parseOk then
      match (tool name args).passed with
      | some true =>
        match (tool name args).code with
        | some c =>
          .returned c (hist ++ [.assistantToolCall id name args,
            .userToolResult id (tool name args).raw, .assistantText c])
        | none =>
          .ended (hist ++ [.assistantToolCall id name args,
              .userToolResult id (tool name args).raw])
            finalText approved (.userToolResult id (tool name args).raw)
      | some false =>
        .ended (hist ++ [.assistantToolCall id name args,
            .userToolResult id (tool name args).raw])
          finalText approved
          (.userText "Please improve the code based on the last review feedback")
      | none =>
        .ended (hist ++ [.assistantToolCall id name args,
            .userToolResult id (tool name args).raw])
          finalText approved (.userToolResult id (tool name args).raw)
    else
      .ended (hist ++ [.assistantToolCall id name args,
          .userToolResult id (tool name args).raw])
        finalText approved (.userToolResult id (tool name args).raw)

/-- The outer generate-review loop of multi_turn_prompt, driven by the
successive provider responses (none models a run that exhausts the
supplied responses while still looping). -/
def multiTurnLoop (tool : String → String → ToolResultView) :
    List (List AsstContent) → List ChatMsg → ChatMsg →
    Option (String × List ChatMsg)
  | [], _, _ => none
  | resp :: rest, hist, prompt =>
    match processContents tool hist none false prompt resp with
    | .returned c h => some (c, h)
    | .ended h ft approved next =>
      if approved || ft.isSome then
        some (ft.getD "Unable to get final code", h)
      else multiTurnLoop tool rest h next

/-- MultiTurnAgent::multi_turn_prompt: push the initial prompt to the
history and run the generate-review loop. -/
def multi_turn_prompt (tool : String → String → ToolResultView)
    (responses : List (List AsstContent)) (initialPrompt : String) :
    Option (String × List ChatMsg) :=
  multiTurnLoop tool responses [.userText initialPrompt] (.userText initialPrompt)

/-- Case analysis of the verdict function, shared by the claims about it. -/
lemma MAGISystemState.verdict_cases (s : MAGISystemState) :
    (2 ≤ s.decisionList.count (some .POSITIVE) →
      s.get_final_decision = some .POSITIVE) ∧
    ((∀ d ∈ s.decisionList, d.isSome) →
      s.decisionList.count (some .POSITIVE) < 2 →
      s.get_final_decision = some .NEGATIVE) ∧
    (s.decisionList.count (some .POSITIVE) < 2 →
      (∃ d ∈ s.decisionList, d = none) →
      s.get_final_decision = none) := by
  obtain ⟨⟨_, md, _⟩, ⟨_, bd, _⟩, ⟨_, cd, _⟩⟩ := s
  rcases md with _ | (_ | _) <;> rcases bd with _ | (_ | _) <;>
    rcases cd with _ | (_ | _) <;>
    simp [MAGISystemState.get_final_decision, MAGISystemState.decisionList,
      List.count, List.countP, List.countP.go] <;> decide

/-- C1: the verdict function returns POSITIVE when at least 2 of the 3
decisions are POSITIVE, NEGATIVE when all 3 decisions are set and fewer
than 2 are POSITIVE, and pending (none) otherwise. -/
theorem magi_verdict_characterization (s : MAGISystemState) :
    (2 ≤ s.decisionList.count (some .POSITIVE) →
      s.get_final_decision = some .POSITIVE) ∧
    ((∀ d ∈ s.decisionList, d.isSome) →
      s.decisionList.count (some .POSITIVE) < 2 →
      s.get_final_decision = some .NEGATIVE) ∧
    (s.decisionList.count (some .POSITIVE) < 2 →
      (∃ d ∈ s.decisionList, d = none) →
      s.get_final_decision = none) :=
  s.verdict_cases

/-- Witness for C1: the characterization applied at concrete states in all
three regimes (two POSITIVE; all set with one POSITIVE; one decision
missing and none POSITIVE). -/
theorem magi_verdict_characterization_witness :
    (MAGISystemState.mk
        ⟨[], some .POSITIVE, ""⟩ ⟨[], some .POSITIVE, ""⟩ ⟨[], none, ""⟩).get_final_decision
      = some .POSITIVE ∧
    (MAGISystemState.mk
        ⟨[], some .POSITIVE, ""⟩ ⟨[], some .NEGATIVE, ""⟩ ⟨[], some .NEGATIVE, ""⟩).get_final_decision
      = some .NEGATIVE ∧
    (MAGISystemState.mk
        ⟨[], some .POSITIVE, ""⟩ ⟨[], none, ""⟩ ⟨[], none, ""⟩).get_final_decision
      = none := by
  refine ⟨?_, ?_, ?_⟩
  · exact (magi_verdict_characterization _).1 (by decide)
  · exact (magi_verdict_characterization _).2.1 (by decide) (by decide)
  · exact (magi_verdict_characterization _).2.2 (by decide) (by decide)

/-- C4 counterexample: with melchior and balthasar decided POSITIVE and
casper still undecided (only 2 of 3 decisions recorded), the verdict
function already returns POSITIVE, not pending. -/
theorem pending_two_positive_counterexample :
    (MAGISystemState.mk
        ⟨[], some .POSITIVE, ""⟩ ⟨[], some .POSITIVE, ""⟩ ⟨[], none, ""⟩).casper.decision
      = none ∧
    (MAGISystemState.mk
        ⟨[], some .POSITIVE, ""⟩ ⟨[], some .POSITIVE, ""⟩ ⟨[], none, ""⟩).get_final_decision
      = some .POSITIVE := by
  decide

/-- C4 amended: with fewer than 3 recorded decisions the verdict is pending
provided fewer than 2 of them are POSITIVE; with 2 POSITIVE decisions the
verdict resolves POSITIVE even before the third reviewer decides. -/
theorem verdict_pending_under_two_positives (s : MAGISystemState) :
    (∃ d ∈ s.decisionList, d = none) →
    s.decisionList.count (some .POSITIVE) < 2 →
    s.get_final_decision = none := by
  intro h1 h2
  exact s.verdict_cases.2.2 h2 h1

/-- Witness for the amended C4 at a concrete state with one POSITIVE
decision and two undecided reviewers. -/
theorem verdict_pending_under_two_positives_witness :
    (MAGISystemState.mk
        ⟨[], some .POSITIVE, ""⟩ ⟨[], none, ""⟩ ⟨[], none, ""⟩).get_final_decision
      = none := by
  exact verdict_pending_under_two_positives _ (by decide) (by decide)

/-- Membership after a completed-set insert. -/
lemma mem_insertSet_self (s : List String) (x : String) : x ∈ insertSet s x := by
  unfold insertSet
  split
  · assumption
  · simp

/-- Reading one reviewer slot after writing a different one is unchanged. -/
lemma MAGISystemState.getAgent_setAgent_ne (s : MAGISystemState) (n : String)
    (ag : MAGIAgentState) (m : String) (h : m ≠ n) :
    (s.setAgent n ag).getAgent m = s.getAgent m := by
  unfold MAGISystemState.setAgent MAGISystemState.getAgent
  split_ifs <;> simp_all

/-- C2 counterexample: melchior and balthasar complete with POSITIVE
content, then casper sends an error envelope; the quorum is reached by
the error envelope and the call returns passed = false and result
NEGATIVE, although the verdict function at the final state is POSITIVE. -/
theorem error_last_quorum_counterexample :
    (runLoop "c" "r" initLoopState
        [.msg (.agentResponse melchiorId "r" "POSITIVE" "completed"),
         .msg (.agentResponse balthasarId "r" "POSITIVE" "completed"),
         .msg (.agentError "r" casperId "boom")]).toOption.map
        (fun o => (o.passed, o.result, o.magi_state.get_final_decision))
      = some (false, "NEGATIVE", some .POSITIVE) := by
  decide

/-- C2 amended: in a run where melchior and balthasar complete with
POSITIVE-bearing content and casper completes via an error envelope, the
outcome depends on arrival order: if the error envelope completes the
quorum, the loop terminates with passed = false without consulting the
verdict function; if the error envelope arrives first, the quorum is
completed by a completion envelope, the verdict function is consulted,
and the outcome is passed = true. -/
theorem quorum_error_order_dependence (code rid c1 c2 err : String)
    (h1 : strContains c1 "POSITIVE" = true)
    (h2 : strContains c2 "POSITIVE" = true) :
    (runLoop code rid initLoopState
        [.msg (.agentResponse melchiorId rid c1 "completed"),
         .msg (.agentResponse balthasarId rid c2 "completed"),
         .msg (.agentError rid casperId err)]).toOption.map
        (fun o => (o.passed, o.result))
      = some (false, "NEGATIVE") ∧
    (runLoop code rid initLoopState
        [.msg (.agentError rid casperId err),
         .msg (.agentResponse melchiorId rid c1 "completed"),
         .msg (.agentResponse balthasarId rid c2 "completed")]).toOption.map
        (fun o => (o.passed, o.result))
      = some (true, "POSITIVE") := by
  constructor <;>
    simp [runLoop, stepMsg, agentNameFor, AGENT_IDS, melchiorId, balthasarId,
      casperId, MAGISystemState.getAgent, MAGISystemState.setAgent, insertSet,
      initLoopState, MAGISystemState.default, finalizeOutput, h1, h2,
      MAGISystemState.get_final_decision, List.countP, List.countP.go,
      Except.toOption]

/-- Witness for the amended C2 at concrete contents, discharging the
POSITIVE-containment hypotheses. -/
theorem quorum_error_order_dependence_witness :
    (runLoop "c" "r" initLoopState
        [.msg (.agentResponse melchiorId "r" "POSITIVE" "completed"),
         .msg (.agentResponse balthasarId "r" "POSITIVE" "completed"),
         .msg (.agentError "r" casperId "boom")]).toOption.map
        (fun o => (o.passed, o.result))
      = some (false, "NEGATIVE") ∧
    (runLoop "c" "r" initLoopState
        [.msg (.agentError "r" casperId "boom"),
         .msg (.agentResponse melchiorId "r" "POSITIVE" "completed"),
         .msg (.agentResponse balthasarId "r" "POSITIVE" "completed")]).toOption.map
        (fun o => (o.passed, o.result))
      = some (true, "POSITIVE") :=
  quorum_error_order_dependence "c" "r" "POSITIVE" "POSITIVE" "boom"
    (by decide) (by decide)

/-- C3: an error envelope matching the session's request id, for any of
the three reviewers and from any prior state, sets that reviewer's
decision to NEGATIVE (regardless of previously accumulated content),
marks the reviewer completed for quorum purposes, leaves the other
reviewers' states unchanged, and, while the quorum is not yet complete,
lets the loop continue instead of aborting. -/
theorem error_envelope_negative_and_continues (code rid err : String)
    (st : LoopState) (aid : String)
    (hmem : aid = melchiorId ∨ aid = balthasarId ∨ aid = casperId) :
    (∃ st', (stepMsg code rid st (.agentError rid aid err)).nextState = some st' ∧
      (st'.magi_state.getAgent (agentNameFor aid)).map (fun a => a.decision)
        = some (some .NEGATIVE) ∧
      agentNameFor aid ∈ st'.completed_agents ∧
      ∀ n, n ≠ agentNameFor aid →
        st'.magi_state.getAgent n = st.magi_state.getAgent n) ∧
    ((insertSet st.completed_agents (agentNameFor aid)).length < 3 →
      ∃ st', stepMsg code rid st (.agentError rid aid err) = .cont st') := by
  rcases hmem with h | h | h <;> subst h <;> refine ⟨?_, fun hlen => ?_⟩
  · have hname : agentNameFor melchiorId = "melchior" := by decide
    rw [hname]
    simp only [stepMsg, hname]
    rw [if_neg (by simp)]
    have hget : st.magi_state.getAgent "melchior" = some st.magi_state.melchior := rfl
    rw [hget]
    simp only []
    split
    · exact ⟨_, rfl,
        by simp [MAGISystemState.getAgent, MAGISystemState.setAgent],
        mem_insertSet_self _ _,
        fun n hn => MAGISystemState.getAgent_setAgent_ne _ _ _ _ hn⟩
    · exact ⟨_, rfl,
        by simp [MAGISystemState.getAgent, MAGISystemState.setAgent],
        mem_insertSet_self _ _,
        fun n hn => MAGISystemState.getAgent_setAgent_ne _ _ _ _ hn⟩
  · have hname : agentNameFor melchiorId = "melchior" := by decide
    rw [hname] at hlen
    simp only [stepMsg, hname]
    rw [if_neg (by simp)]
    have hget : st.magi_state.getAgent "melchior" = some st.magi_state.melchior := rfl
    rw [hget]
    simp only []
    rw [if_neg (by omega)]
    exact ⟨_, rfl⟩
  · have hname : agentNameFor balthasarId = "balthasar" := by decide
    rw [hname]
    simp only [stepMsg, hname]
    rw [if_neg (by simp)]
    have hget : st.magi_state.getAgent "balthasar" = some st.magi_state.balthasar := rfl
    rw [hget]
    simp only []
    split
    · exact ⟨_, rfl,
        by simp [MAGISystemState.getAgent, MAGISystemState.setAgent],
        mem_insertSet_self _ _,
        fun n hn => MAGISystemState.getAgent_setAgent_ne _ _ _ _ hn⟩
    · exact ⟨_, rfl,
        by simp [MAGISystemState.getAgent, MAGISystemState.setAgent],
        mem_insertSet_self _ _,
        fun n hn => MAGISystemState.getAgent_setAgent_ne _ _ _ _ hn⟩
  · have hname : agentNameFor balthasarId = "balthasar" := by decide
    rw [hname] at hlen
    simp only [stepMsg, hname]
    rw [if_neg (by simp)]
    have hget : st.magi_state.getAgent "balthasar" = some st.magi_state.balthasar := rfl
    rw [hget]
    simp only []
    rw [if_neg (by omega)]
    exact ⟨_, rfl⟩
  · have hname : agentNameFor casperId = "casper" := by decide
    rw [hname]
    simp only [stepMsg, hname]
    rw [if_neg (by simp)]
    have hget : st.magi_state.getAgent "casper" = some st.magi_state.casper := rfl
    rw [hget]
    simp only []
    split
    · exact ⟨_, rfl,
        by simp [MAGISystemState.getAgent, MAGISystemState.setAgent],
        mem_insertSet_self _ _,
        fun n hn => MAGISystemState.getAgent_setAgent_ne _ _ _ _ hn⟩
    · exact ⟨_, rfl,
        by simp [MAGISystemState.getAgent, MAGISystemState.setAgent],
        mem_insertSet_self _ _,
        fun n hn => MAGISystemState.getAgent_setAgent_ne _ _ _ _ hn⟩
  · have hname : agentNameFor casperId = "casper" := by decide
    rw [hname] at hlen
    simp only [stepMsg, hname]
    rw [if_neg (by simp)]
    have hget : st.magi_state.getAgent "casper" = some st.magi_state.casper := rfl
    rw [hget]
    simp only []
    rw [if_neg (by omega)]
    exact ⟨_, rfl⟩

/-- C5 counterexample: melchior's decision is set to POSITIVE by a
completed terminal response, and a later error envelope for melchior in
the same run overwrites it to NEGATIVE and appends a further message, so
the ReviewerState is not frozen once the decision is set. -/
theorem decision_overwrite_counterexample :
    (runLoop "c" "r" initLoopState
        [.msg (.agentResponse melchiorId "r" "POSITIVE" "completed")]).toOption.map
        (fun o => (o.magi_state.melchior.decision,
          o.magi_state.melchior.messages.length))
      = some (some .POSITIVE, 1) ∧
    (runLoop "c" "r" initLoopState
        [.msg (.agentResponse melchiorId "r" "POSITIVE" "completed"),
         .msg (.agentError "r" melchiorId "boom")]).toOption.map
        (fun o => (o.magi_state.melchior.decision,
          o.magi_state.melchior.messages.length))
      = some (some .NEGATIVE, 2) := by
  decide

/-- C5 amended: a reviewer's state is mutated only by messages bearing
that reviewer's identity — processing any message routed to a different
(or unknown) agent identifier leaves the reviewer's slot unchanged; the
decision, however, is not write-once, since a later completion or error
envelope for the same reviewer overwrites it. -/
theorem reviewer_state_only_own_messages (code rid : String) (st : LoopState)
    (m : WireMsg) (name : String) (st' : LoopState)
    (hown : ∀ aid, m.agentId = some aid → agentNameFor aid ≠ name)
    (hres : (stepMsg code rid st m).nextState = some st') :
    st'.magi_state.getAgent name = st.magi_state.getAgent name := by
  cases m with
  | agentResponse aid mrid content status =>
    have hne : name ≠ agentNameFor aid := Ne.symm (hown aid rfl)
    simp only [stepMsg] at hres
    repeat' split at hres
    all_goals
      first
        | (simp only [StepResult.nextState, Option.some.injEq] at hres;
           subst hres;
           first
             | rfl
             | exact MAGISystemState.getAgent_setAgent_ne _ _ _ _ hne)
        | simp [StepResult.nextState] at hres
  | messageReceived mtype status mrid aid content =>
    have hne : name ≠ agentNameFor aid := Ne.symm (hown aid rfl)
    simp only [stepMsg] at hres
    repeat' split at hres
    all_goals
      first
        | (simp only [StepResult.nextState, Option.some.injEq] at hres;
           subst hres;
           first
             | rfl
             | exact MAGISystemState.getAgent_setAgent_ne _ _ _ _ hne)
        | simp [StepResult.nextState] at hres
  | agentError mrid aid error =>
    have hne : name ≠ agentNameFor aid := Ne.symm (hown aid rfl)
    simp only [stepMsg] at hres
    repeat' split at hres
    all_goals
      first
        | (simp only [StepResult.nextState, Option.some.injEq] at hres;
           subst hres;
           first
             | rfl
             | exact MAGISystemState.getAgent_setAgent_ne _ _ _ _ hne)
        | simp [StepResult.nextState] at hres
  | other =>
    simp only [stepMsg, StepResult.nextState, Option.some.injEq] at hres
    subst hres
    rfl

/-- Witness for the amended C5: a streaming terminal response routed to
melchior leaves balthasar's slot unchanged. -/
theorem reviewer_state_only_own_messages_witness :
    ({ reviews := ["Reviewer melchior: x"], final_result := "", passed := false,
       magi_state :=
         { melchior :=
             { messages := [{ request_id := "r", content := "x" }],
               decision := none, content := "x" },
           balthasar := { messages := [], decision := none, content := "" },
           casper := { messages := [], decision := none, content := "" } },
       completed_agents := [], error_messages := [] } : LoopState).magi_state.getAgent
        "balthasar"
      = initLoopState.magi_state.getAgent "balthasar" :=
  reviewer_state_only_own_messages "c" "r" initLoopState
    (.agentResponse melchiorId "r" "x" "streaming") "balthasar" _
    (fun aid h => by
      simp only [WireMsg.agentId, Option.some.injEq] at h
      subst h
      decide)
    (by decide)

/-- Witness for C3: the error-envelope theorem applied to melchior from
the initial loop state. -/
theorem error_envelope_negative_and_continues_witness :
    (∃ st', (stepMsg "c" "r" initLoopState
        (.agentError "r" melchiorId "boom")).nextState = some st' ∧
      (st'.magi_state.getAgent (agentNameFor melchiorId)).map (fun a => a.decision)
        = some (some .NEGATIVE) ∧
      agentNameFor melchiorId ∈ st'.completed_agents ∧
      ∀ n, n ≠ agentNameFor melchiorId →
        st'.magi_state.getAgent n = initLoopState.magi_state.getAgent n) ∧
    ((insertSet initLoopState.completed_agents (agentNameFor melchiorId)).length < 3 →
      ∃ st', stepMsg "c" "r" initLoopState (.agentError "r" melchiorId "boom")
        = .cont st') :=
  error_envelope_negative_and_continues "c" "r" "boom" initLoopState melchiorId
    (Or.inl rfl)

/-- C6: a failed connection attempt, a failed judgement-request send, and
a mid-stream receive failure each abort the whole review call with the
distinguished connection or WebSocket error — an Err result, never a
normal outcome carrying passed = false or a NEGATIVE verdict. -/
theorem transport_failure_aborts (args : CodeReviewArgs) (code rid e : String)
    (events : List InEvent) (st : LoopState) :
    codeReviewCall args (some e) none rid events
      = .error (.ConnectionError ("Failed to connect to WebSocket server: " ++ e)) ∧
    codeReviewCall args none (some e) rid events
      = .error (.WebSocketError ("Failed to send review request: " ++ e)) ∧
    runLoop code rid st (.recvError e :: events)
      = .error (.WebSocketError ("Error receiving message: " ++ e)) :=
  ⟨rfl, rfl, rfl⟩

/-- C7: a message whose request id differs from the session's is a no-op:
the step leaves the loop state untouched and the run over any remaining
events is unchanged. -/
theorem mismatched_request_id_noop (code rid : String) (st : LoopState)
    (m : WireMsg) (r : String) (rest : List InEvent)
    (hr : m.requestId = some r) (hne : r ≠ rid) :
    stepMsg code rid st m = .cont st ∧
    runLoop code rid st (.msg m :: rest) = runLoop code rid st rest := by
  have hstep : stepMsg code rid st m = .cont st := by
    cases m with
    | agentResponse aid mrid content status =>
      simp only [WireMsg.requestId, Option.some.injEq] at hr
      subst hr
      simp [stepMsg, hne]
    | messageReceived mtype status mrid aid content =>
      simp only [WireMsg.requestId, Option.some.injEq] at hr
      subst hr
      simp only [stepMsg]
      split_ifs <;> simp_all
    | agentError mrid aid error =>
      simp only [WireMsg.requestId, Option.some.injEq] at hr
      subst hr
      simp [stepMsg, hne]
    | other => simp [WireMsg.requestId] at hr
  refine ⟨hstep, ?_⟩
  simp [runLoop, hstep]

/-- Witness for C7: a completed terminal response for melchior tagged
with a foreign request id leaves the initial state untouched. -/
theorem mismatched_request_id_noop_witness :
    stepMsg "c" "r" initLoopState
        (.agentResponse melchiorId "other" "POSITIVE" "completed")
      = .cont initLoopState ∧
    runLoop "c" "r" initLoopState
        [.msg (.agentResponse melchiorId "other" "POSITIVE" "completed")]
      = runLoop "c" "r" initLoopState [] :=
  mismatched_request_id_noop "c" "r" initLoopState
    (.agentResponse melchiorId "other" "POSITIVE" "completed") "other" []
    rfl (by decide)

/-- C8 counterexample: a terminal response whose agent identifier matches
none of the three reviewers is not fully ignored — it appends a
"Reviewer unknown" line to the reviews list, changing the outcome. -/
theorem unknown_agent_reviews_counterexample :
    (runLoop "c" "r" initLoopState
        [.msg (.agentResponse "bogus-agent" "r" "hi" "streaming")]).toOption.map
        (fun o => o.reviews)
      = some ["Reviewer unknown: hi", "Melchior: ", "Balthasar: ", "Casper: "] ∧
    (runLoop "c" "r" initLoopState []).toOption.map (fun o => o.reviews)
      = some ["Melchior: ", "Balthasar: ", "Casper: "] := by
  decide

/-- C8 amended: a message with an unrecognized agent identifier never
touches any ReviewerState or the completed-count, and a streaming
envelope with such an identifier is fully ignored; but a terminal
response appends a "Reviewer unknown" line to the reviews list and an
error envelope appends a "Reviewer unknown error" line to the error
list, so the reviews component of the outcome can still change. -/
theorem unknown_agent_effects (code rid : String) (st : LoopState) (aid : String)
    (h1 : aid ≠ melchiorId) (h2 : aid ≠ balthasarId) (h3 : aid ≠ casperId) :
    (∀ content status, stepMsg code rid st (.agentResponse aid rid content status)
        = .cont { st with reviews := st.reviews ++ ["Reviewer unknown: " ++ content] }) ∧
    (∀ status content,
      stepMsg code rid st (.messageReceived "agent_response" status rid aid content)
        = .cont st) ∧
    (∀ err, stepMsg code rid st (.agentError rid aid err)
        = .cont { st with error_messages :=
            st.error_messages ++ ["Reviewer unknown error: " ++ err] }) := by
  have e1 : (melchiorId == aid) = false := beq_eq_false_iff_ne.mpr (Ne.symm h1)
  have e2 : (balthasarId == aid) = false := beq_eq_false_iff_ne.mpr (Ne.symm h2)
  have e3 : (casperId == aid) = false := beq_eq_false_iff_ne.mpr (Ne.symm h3)
  have hname : agentNameFor aid = "unknown" := by
    simp [agentNameFor, AGENT_IDS, List.find?, e1, e2, e3]
  refine ⟨fun content status => ?_, fun status content => ?_, fun err => ?_⟩
  · simp only [stepMsg, hname]
    rw [if_neg (by simp)]
    rfl
  · simp only [stepMsg, hname]
    rw [if_neg (by simp), if_neg (by simp)]
    rfl
  · simp only [stepMsg, hname]
    rw [if_neg (by simp)]
    rfl

/-- Witness for the amended C8 at a concrete unknown agent identifier. -/
theorem unknown_agent_effects_witness :
    stepMsg "c" "r" initLoopState (.agentResponse "bogus-agent" "r" "hi" "streaming")
      = .cont { initLoopState with reviews :=
          initLoopState.reviews ++ ["Reviewer unknown: " ++ "hi"] } ∧
    stepMsg "c" "r" initLoopState
        (.messageReceived "agent_response" "streaming" "r" "bogus-agent" "hi")
      = .cont initLoopState ∧
    stepMsg "c" "r" initLoopState (.agentError "r" "bogus-agent" "oops")
      = .cont { initLoopState with error_messages :=
          initLoopState.error_messages ++ ["Reviewer unknown error: " ++ "oops"] } := by
  have h := unknown_agent_effects "c" "r" initLoopState "bogus-agent"
    (by decide) (by decide) (by decide)
  exact ⟨h.1 "hi" "streaming", h.2.1 "streaming" "hi", h.2.2 "oops"⟩

/-- An early-return output of the receive loop carries the reviewed code. -/
lemma stepMsg_done_code (code rid : String) (st : LoopState) (m : WireMsg)
    (out : CodeReviewOutput) (h : stepMsg code rid st m = .done out) :
    out.code = code := by
  cases m <;> simp only [stepMsg] at h <;> repeat' split at h
  all_goals
    first
      | (injection h with h; subst h; rfl)
      | (exact absurd h (by simp))

/-- Every Ok result of the receive loop carries the reviewed code. -/
lemma runLoop_ok_code (code rid : String) (events : List InEvent) (st : LoopState)
    (out : CodeReviewOutput) (h : runLoop code rid st events = .ok out) :
    out.code = code := by
  induction events generalizing st with
  | nil =>
    simp only [runLoop] at h
    injection h with h
    subst h
    rfl
  | cons ev rest ih =>
    cases ev with
    | recvError e => simp [runLoop] at h
    | msg m =>
      simp only [runLoop] at h
      cases hstep : stepMsg code rid st m with
      | cont st' =>
        rw [hstep] at h
        exact ih st' h
      | done o =>
        rw [hstep] at h
        injection h with h
        subst h
        exact stepMsg_done_code code rid st m o hstep
      | broke st' =>
        rw [hstep] at h
        injection h with h
        subst h
        rfl

/-- C10: on every Ok return path of the review call — early POSITIVE
return, early NEGATIVE return, break-and-drain, and end-of-stream
fallback — the output's code field equals the code passed in as the
tool's argument. -/
theorem output_code_preserved (args : CodeReviewArgs) (cf sf : Option String)
    (rid : String) (events : List InEvent) (out : CodeReviewOutput)
    (h : codeReviewCall args cf sf rid events = .ok out) :
    out.code = args.code := by
  cases cf with
  | some e => simp [codeReviewCall] at h
  | none =>
    cases sf with
    | some e => simp [codeReviewCall] at h
    | none => exact runLoop_ok_code args.code rid events initLoopState out h

/-- Witness for C10: the review call on an immediately drained stream
returns an output whose code field is the argument code. -/
theorem output_code_preserved_witness :
    (finalizeOutput "print(1)" initLoopState).code = "print(1)" :=
  output_code_preserved { user_input := "hi", code := "print(1)" } none none
    "r" [] _ rfl

/-- C9: from any history and prompt, when the provider's response is a
tool call whose review outcome parses with passed = true and a code
field, the orchestrator loop returns exactly that code, and the turns it
appends before returning are the tool-call turn, the tool-result turn and
one final assistant turn carrying the approved code — exactly one
assistant text turn, in final position. -/
theorem orchestrator_approved_code_return
    (tool : String → String → ToolResultView) (responses : List (List AsstContent))
    (hist : List ChatMsg) (prompt : ChatMsg) (id nm args c : String)
    (h1 : (tool nm args).parseOk = true)
    (h2 : (tool nm args).passed = some true)
    (h3 : (tool nm args).code = some c) :
    multiTurnLoop tool ([.toolCall id nm args] :: responses) hist prompt
      = some (c, hist ++ [.assistantToolCall id nm args,
          .userToolResult id (tool nm args).raw, .assistantText c]) ∧
    [ChatMsg.assistantToolCall id nm args,
     .userToolResult id (tool nm args).raw,
     .assistantText c].filter ChatMsg.isAssistantText = [.assistantText c] ∧
    [ChatMsg.assistantToolCall id nm args,
     .userToolResult id (tool nm args).raw,
     .assistantText c].getLast? = some (.assistantText c) := by
  refine ⟨?_, rfl, rfl⟩
  simp only [multiTurnLoop, processContents, h1, h2, h3]
  rfl

/-- Witness for C9 with a concrete always-approving tool. -/
theorem orchestrator_approved_code_return_witness :
    multiTurnLoop (fun _ _ => { raw := "rawresult", parseOk := true,
                                passed := some true, code := some "print(42)" })
      [[.toolCall "t1" "code_review" "arglist"]]
      [.userText "go"] (.userText "go")
      = some ("print(42)",
          [.userText "go"] ++ [.assistantToolCall "t1" "code_review" "arglist",
            .userToolResult "t1" "rawresult", .assistantText "print(42)"]) :=
  (orchestrator_approved_code_return
    (fun _ _ => { raw := "rawresult", parseOk := true,
                  passed := some true, code := some "print(42)" })
    [] [.userText "go"] (.userText "go") "t1" "code_review" "arglist" "print(42)"
    rfl rfl rfl).1
